import Mathlib

/-!
Verification of the first-candle scanner core (`src/scanner.py`).

Prices are modelled as rationals (`ℚ`) and volumes as integers (`ℤ`);
calendar dates are abstracted to natural numbers and wall-clock times to
integers.  Bar sequences are Lean lists, Python dicts are association
lists with Python's update-in-place-else-append insertion, and the
scanner object's mutable state is passed explicitly.
-/

/-- `Exchange` enum from `scanner.py`. -/
inductive Exchange
  | NASDAQ
  | NYSE
  | BOTH
deriving DecidableEq, Repr

/-- `ScannerSettings` dataclass from `scanner.py`. -/
structure ScannerSettings where
  exchange : Exchange := Exchange.BOTH
  min_price : ℚ := 0
  max_price : ℚ := 100
  min_market_cap : ℚ := 0
  max_market_cap : ℚ := 100
  min_volume : ℤ := 100000
  timeframe_minutes : ℤ := 2
  detect_ha_candle : Bool := true
  detect_normal_candle : Bool := true
deriving DecidableEq, Repr

/-- One OHLCV row of the historical-bars dataframe.  `date` abstracts the
calendar date of the bar's timestamp (`df['datetime'].dt.date`). -/
structure Bar where
  date : ℕ
  open_ : ℚ
  high : ℚ
  low : ℚ
  close : ℚ
  volume : ℤ
deriving DecidableEq, Repr

/-- One row of the Heikin-Ashi columns added by
`HeikinAshiCalculator.calculate`. -/
structure HABar where
  ha_open : ℚ
  ha_high : ℚ
  ha_low : ℚ
  ha_close : ℚ
deriving DecidableEq, Repr

/-- `ha_close` column: `(df.open + df.high + df.low + df.close) / 4`. -/
def haCloseOf (b : Bar) : ℚ :=
  (b.open_ + b.high + b.low + b.close) / 4

/-- Build one output row of `HeikinAshiCalculator.calculate` from a raw bar
and its `ha_open` value: `ha_high = max(high, ha_open, ha_close)` and
`ha_low = min(low, ha_open, ha_close)`. -/
def haRow (b : Bar) (o : ℚ) : HABar :=
  { ha_open := o
    ha_high := max b.high (max o (haCloseOf b))
    ha_low := min b.low (min o (haCloseOf b))
    ha_close := haCloseOf b }

/-- Tail of `HeikinAshiCalculator.calculate`'s recurrence: `prevOpen` and
`prevClose` are the previous row's `ha_open` and `ha_close`, and each new
`ha_open` is `(prev_ha_open + prev_ha_close) / 2`. -/
def calculateAux (prevOpen prevClose : ℚ) : List Bar → List HABar
  | [] => []
  | b :: bs =>
    let o := (prevOpen + prevClose) / 2
    haRow b o :: calculateAux o (haCloseOf b) bs

/-- `HeikinAshiCalculator.calculate`: empty in → empty out; `ha_open` is
seeded with the first raw open and then follows the recurrence. -/
def calculate : List Bar → List HABar
  | [] => []
  | b :: bs => haRow b b.open_ :: calculateAux b.open_ (haCloseOf b) bs

/-- `HeikinAshiCalculator.is_bullish`: `none` models the `IndexError`
pandas `iloc` raises for an out-of-range index; a negative index counts
from the end; the empty frame returns `False` before any indexing. -/
def is_bullish (l : List HABar) (index : ℤ) : Option Bool :=
  if l = [] then some false
  else
    let j : ℤ := if index < 0 then index + (l.length : ℤ) else index
    if 0 ≤ j then
      match l.get? j.toNat with
      | some b => some (decide (b.ha_open < b.ha_close))
      | none => none
    else none

/-- The snapshot dict built by `IBKRScanner._get_market_data`; `none`
models the empty dict it returns when the request fails. -/
structure MktData where
  last_price : ℚ
  bid : ℚ
  ask : ℚ
  volume : ℤ
deriving DecidableEq, Repr

/-- `ScanResult` dataclass from `scanner.py`; `scan_time` is an abstract
wall-clock stamp. -/
structure ScanResult where
  symbol : String
  last_price : ℚ := 0
  change_percent : ℚ := 0
  bid : ℚ := 0
  ask : ℚ := 0
  market_cap : ℚ := 0
  volume : ℤ := 0
  ha_bullish : Bool := false
  normal_bullish : Bool := false
  first_candle_volume : ℤ := 0
  scan_time : ℤ := 0
  parameters_used : String := ""
deriving DecidableEq, Repr

/-- `IBKRScanner._analyze_first_candle`: filter the frame to today's
date, read the first session bar's volume, classify raw bullishness by
`close > open`, and compute HA bullishness at index 0 only when
`detect_ha_candle` is set.  For a nonempty `today_df` the index 0 is in
range, so `getD false` never supplies its default. -/
def analyze_first_candle (settings : ScannerSettings) (today : ℕ)
    (df : List Bar) : Bool × Bool × ℤ :=
  if df = [] then (false, false, 0)
  else
    let today_df := df.filter (fun b => b.date = today)
    match today_df with
    | [] => (false, false, 0)
    | first_candle :: _ =>
      let first_candle_volume := first_candle.volume
      let normal_bullish := decide (first_candle.open_ < first_candle.close)
      let ha_bullish :=
        if settings.detect_ha_candle then
          (is_bullish (calculate today_df) 0).getD false
        else false
      (ha_bullish, normal_bullish, first_candle_volume)

/-- First nested rejection block of `IBKRScanner._scan_stock`
(`if detect_ha_candle and not ha_bullish: ...`); `true` means
`return None`. -/
def scan_reject1 (s : ScannerSettings) (haB nB : Bool) : Bool :=
  if s.detect_ha_candle && !haB then
    if s.detect_normal_candle && !nB then true
    else if !s.detect_normal_candle then true
    else false
  else false

/-- Second nested rejection block of `IBKRScanner._scan_stock`
(`if detect_normal_candle and not normal_bullish: ...`); `true` means
`return None`. -/
def scan_reject2 (s : ScannerSettings) (haB nB : Bool) : Bool :=
  if s.detect_normal_candle && !nB then
    if s.detect_ha_candle && !haB then true
    else if !s.detect_ha_candle then true
    else false
  else false

/-- The qualification decision `_scan_stock` makes after the volume
gate: the instrument survives iff neither rejection block fires. -/
def scan_qualifies (s : ScannerSettings) (haB nB : Bool) : Bool :=
  !(scan_reject1 s haB nB || scan_reject2 s haB nB)

/-- `df['close'].iloc[-1]` for a frame known to be nonempty at the call
site; the 0 default is unreachable there. -/
def lastClose (df : List Bar) : ℚ :=
  ((df.map Bar.close).get? (df.length - 1)).getD 0

/-- `df['close'].iloc[-2] if len(df) > 1 else df['close'].iloc[-1]` from
`_scan_stock`'s change-percent step. -/
def prevCloseOf (df : List Bar) : ℚ :=
  if 1 < df.length then ((df.map Bar.close).get? (df.length - 2)).getD 0
  else lastClose df

/-- The parameters string `_scan_stock` stores on each result. -/
def paramsString (s : ScannerSettings) : String :=
  "TF:" ++ toString s.timeframe_minutes ++ "m | Vol:" ++
    toString s.min_volume ++ " | Price:$" ++ toString s.min_price ++
    "-$" ++ toString s.max_price

/-- `IBKRScanner._scan_stock` for one instrument, with the upstream
fetches (`df`, `mkt`, `market_cap`) passed in as data and `now` the
wall-clock stamp.  Returns `none` exactly where the Python returns
`None`. -/
def scan_stock (settings : ScannerSettings) (today : ℕ) (symbol : String)
    (df : List Bar) (mkt : Option MktData) (market_cap : ℚ) (now : ℤ) :
    Option ScanResult :=
  if df = [] then none
  else
    let r := analyze_first_candle settings today df
    let ha_bullish := r.1
    let normal_bullish := r.2.1
    let first_candle_volume := r.2.2
    if first_candle_volume < settings.min_volume then none
    else if scan_reject1 settings ha_bullish normal_bullish then none
    else if scan_reject2 settings ha_bullish normal_bullish then none
    else
      let prev_close := prevCloseOf df
      let last_price := (mkt.map MktData.last_price).getD (lastClose df)
      let change_percent : ℚ :=
        if 0 < prev_close then (last_price - prev_close) / prev_close * 100
        else 0
      some
        { symbol := symbol
          last_price := (mkt.map MktData.last_price).getD last_price
          change_percent := change_percent
          bid := (mkt.map MktData.bid).getD 0
          ask := (mkt.map MktData.ask).getD 0
          market_cap := market_cap
          volume := (mkt.map MktData.volume).getD 0
          ha_bullish := ha_bullish
          normal_bullish := normal_bullish
          first_candle_volume := first_candle_volume
          scan_time := now
          parameters_used := paramsString settings }

/-- Python-dict insertion: updating an existing key keeps its position,
a new key is appended. -/
def dictInsert : List (String × ScanResult) → String → ScanResult →
    List (String × ScanResult)
  | [], k, v => [(k, v)]
  | (k', v') :: rest, k, v =>
    if k' = k then (k, v) :: rest else (k', v') :: dictInsert rest k v

/-- One entry of `IBKRScanner.scan_history`. -/
structure ScanRun where
  timestamp : ℤ
  parameters : String
  results : List (String × ScanResult)
deriving DecidableEq, Repr

/-- The mutable fields of `IBKRScanner` that `run_scan` touches. -/
structure ScannerState where
  connected : Bool
  settings : ScannerSettings
  results : List (String × ScanResult)
  scan_history : List ScanRun
  has_callback : Bool
deriving Repr

/-- Upstream data for one candidate instrument: its symbol and the
responses of the three per-instrument fetches. -/
structure StockData where
  symbol : String
  df : List Bar
  mkt : Option MktData
  market_cap : ℚ
deriving Repr

/-- Outcome of one `run_scan` call: the post-state, the returned
mapping, whether the registered callback was invoked (and with what),
and whether the "Not connected" error was logged. -/
structure ScanOutcome where
  state : ScannerState
  returned : List (String × ScanResult)
  notified : Option (List (String × ScanResult))
  loggedNotConnected : Bool
deriving Repr

/-- The per-candidate loop of `run_scan`: scan each contract and collect
qualifying results keyed by symbol. -/
def collectResults (settings : ScannerSettings) (today : ℕ) (now : ℤ)
    (univ : List StockData) : List (String × ScanResult) :=
  univ.foldl
    (fun acc sd =>
      match scan_stock settings today sd.symbol sd.df sd.mkt
          sd.market_cap now with
      | some result => dictInsert acc result.symbol result
      | none => acc)
    []

/-- The parameters tag stored on each history entry:
`"TF:" + timeframe_minutes + "m"`. -/
def tfParams (s : ScannerSettings) : String :=
  "TF:" ++ toString s.timeframe_minutes ++ "m"

/-- `IBKRScanner.run_scan`, with the univ fetch's response passed in
as `univ` and the wall clock as `now`/`today`.  Not connected: log,
return `{}`, touch nothing.  Otherwise archive a non-empty live set,
scan the univ, replace the live set and notify the callback. -/
def run_scan (now : ℤ) (today : ℕ) (univ : List StockData)
    (st : ScannerState) : ScanOutcome :=
  if !st.connected then
    { state := st, returned := [], notified := none,
      loggedNotConnected := true }
  else
    let st1 :=
      if st.results ≠ [] then
        { st with scan_history := st.scan_history ++
            [{ timestamp := now
               parameters := tfParams st.settings
               results := st.results }] }
      else st
    let new_results := collectResults st.settings today now univ
    let st2 := { st1 with results := new_results }
    { state := st2, returned := new_results,
      notified := if st.has_callback then some new_results else none,
      loggedNotConnected := false }

/-- Program points of the `monitor_loop` thread body spawned by
`start_monitoring`: the `while self._running` test, a `run_scan` in
flight, the one-second-granularity wait with `k` ticks remaining, and
thread exit. -/
inductive MonitorPhase
  | checkRunning
  | scanning
  | waiting (k : ℕ)
  | exited
deriving DecidableEq, Repr

/-- State shared between the monitor thread and its controller:
`self._running` plus the thread's program point and the configured
interval. -/
structure MonitorState where
  running : Bool
  phase : MonitorPhase
  interval : ℕ
deriving DecidableEq, Repr

/-- Observable events of the monitor loop. -/
inductive MonitorEvent
  | scanStarted
  | scanFinished
  | marketClosed
  | sleptOneSecond
  | wokeEarly
  | waitFinished
  | loopExited
deriving DecidableEq, Repr

/-- Small-step semantics of `monitor_loop`.  A scan starts only from the
`while self._running` test with the flag still true (and the market
open); the inner wait loop re-checks the flag each second and breaks
early when it is cleared; the loop exits when the `while` test fails. -/
inductive monitorStep : MonitorState → MonitorEvent → MonitorState → Prop
  | startScan (s : MonitorState) :
      s.phase = MonitorPhase.checkRunning → s.running = true →
      monitorStep s MonitorEvent.scanStarted
        { s with phase := MonitorPhase.scanning }
  | skipClosed (s : MonitorState) :
      s.phase = MonitorPhase.checkRunning → s.running = true →
      monitorStep s MonitorEvent.marketClosed
        { s with phase := MonitorPhase.waiting s.interval }
  | exitLoop (s : MonitorState) :
      s.phase = MonitorPhase.checkRunning → s.running = false →
      monitorStep s MonitorEvent.loopExited
        { s with phase := MonitorPhase.exited }
  | finishScan (s : MonitorState) :
      s.phase = MonitorPhase.scanning →
      monitorStep s MonitorEvent.scanFinished
        { s with phase := MonitorPhase.waiting s.interval }
  | sleepTick (s : MonitorState) (k : ℕ) :
      s.phase = MonitorPhase.waiting (k + 1) → s.running = true →
      monitorStep s MonitorEvent.sleptOneSecond
        { s with phase := MonitorPhase.waiting k }
  | breakEarly (s : MonitorState) (k : ℕ) :
      s.phase = MonitorPhase.waiting k → s.running = false →
      monitorStep s MonitorEvent.wokeEarly
        { s with phase := MonitorPhase.checkRunning }
  | sleepDone (s : MonitorState) :
      s.phase = MonitorPhase.waiting 0 →
      monitorStep s MonitorEvent.waitFinished
        { s with phase := MonitorPhase.checkRunning }

/-- Reflexive-transitive closure of `monitorStep`, recording the list of
events along the way. -/
inductive MonitorTrace : MonitorState → List MonitorEvent → MonitorState → Prop
  | refl (s : MonitorState) : MonitorTrace s [] s
  | step (s₁ s₂ s₃ : MonitorState) (e : MonitorEvent) (es : List MonitorEvent) :
      monitorStep s₁ e s₂ → MonitorTrace s₂ es s₃ →
      MonitorTrace s₁ (e :: es) s₃

/-- `IBKRScanner.start_monitoring`: set `self._running = True` and spawn
the monitor thread at the top of its loop. -/
def start_monitoring (interval_seconds : ℕ) : MonitorState :=
  { running := true, phase := MonitorPhase.checkRunning,
    interval := interval_seconds }

/-- `IBKRScanner.stop_monitoring`: clear `self._running` and join the
thread; the second component records the `timeout=5` bound passed to
`join`. -/
def stop_monitoring (s : MonitorState) : MonitorState × ℕ :=
  ({ s with running := false }, 5)

/-- The qualification rule as the spec words it: a single conjunction
`(not detect_smoothed or smoothed_bullish) and (not detect_normal or
normal_bullish) and (detect_smoothed or detect_normal)`.  Written from
the spec, to be compared with `scan_qualifies` from the source. -/
def qualifies_spec (s : ScannerSettings) (haB nB : Bool) : Bool :=
  (!s.detect_ha_candle || haB) && (!s.detect_normal_candle || nB) &&
    (s.detect_ha_candle || s.detect_normal_candle)

/-- The reference close as the spec words it: the second-to-last bar's
close when at least two bars exist, else the only available close
(0 when unavailable).  Written from the spec, to be compared with
`prevCloseOf` from the source. -/
def prevCloseSpec (df : List Bar) : ℚ :=
  if 2 ≤ df.length then ((df.get? (df.length - 2)).map Bar.close).getD 0
  else ((df.get? 0).map Bar.close).getD 0

/-- The live last price used by the change-percent step: the quote
snapshot's last when the snapshot arrived, else the last bar close. -/
def liveLast (df : List Bar) (mkt : Option MktData) : ℚ :=
  (mkt.map MktData.last_price).getD (lastClose df)

/-- Erase the `scan_time` stamp, for comparing results "modulo
scan_time". -/
def scrubTime (r : ScanResult) : ScanResult :=
  { r with scan_time := 0 }

/-- Erase every `scan_time` stamp in a live mapping. -/
def scrubMap (m : List (String × ScanResult)) : List (String × ScanResult) :=
  m.map (fun p => (p.1, scrubTime p.2))


/-! ### Characterization of `HeikinAshiCalculator.calculate` -/

theorem calculateAux_length (bs : List Bar) :
    ∀ po pc : ℚ, (calculateAux po pc bs).length = bs.length := by
  induction bs with
  | nil => intro po pc; rfl
  | cons b bs ih => intro po pc; simp [calculateAux, ih]

theorem calculate_length (bars : List Bar) :
    (calculate bars).length = bars.length := by
  cases bars with
  | nil => rfl
  | cons b bs => simp [calculate, calculateAux_length]

/-- Every output row of the recurrence tail is `haRow` of the matching
input bar and the row's own `ha_open`. -/
theorem calculateAux_shape (bs : List Bar) :
    ∀ (po pc : ℚ) (i : ℕ) (hb : HABar) (b : Bar),
      (calculateAux po pc bs).get? i = some hb → bs.get? i = some b →
      hb = haRow b hb.ha_open := by
  induction bs with
  | nil => intro po pc i hb b h1 _; simp [calculateAux] at h1
  | cons b' bs ih =>
    intro po pc i hb b h1 h2
    cases i with
    | zero =>
      simp only [calculateAux, List.get?] at h1 h2
      obtain rfl := Option.some.inj h1
      obtain rfl := Option.some.inj h2
      rfl
    | succ i =>
      simp only [calculateAux, List.get?] at h1 h2
      exact ih _ _ i hb b h1 h2

/-- Every output row of `calculate` is `haRow` of the matching input bar
and the row's own `ha_open`. -/
theorem calculate_shape (bars : List Bar) (i : ℕ) (hb : HABar) (b : Bar)
    (h1 : (calculate bars).get? i = some hb) (h2 : bars.get? i = some b) :
    hb = haRow b hb.ha_open := by
  cases bars with
  | nil => simp [calculate] at h1
  | cons b' bs =>
    cases i with
    | zero =>
      simp only [calculate, List.get?] at h1 h2
      obtain rfl := Option.some.inj h1
      obtain rfl := Option.some.inj h2
      rfl
    | succ i =>
      simp only [calculate, List.get?] at h1 h2
      exact calculateAux_shape bs _ _ i hb b h1 h2

/-- Consecutive rows of the recurrence tail satisfy the `ha_open`
recurrence. -/
theorem calculateAux_open_step (bs : List Bar) :
    ∀ (po pc : ℚ) (i : ℕ) (hb hb' : HABar),
      (calculateAux po pc bs).get? i = some hb →
      (calculateAux po pc bs).get? (i + 1) = some hb' →
      hb'.ha_open = (hb.ha_open + hb.ha_close) / 2 := by
  induction bs with
  | nil => intro po pc i hb hb' h1 _; simp [calculateAux] at h1
  | cons b bs ih =>
    intro po pc i hb hb' h1 h2
    cases i with
    | zero =>
      cases bs with
      | nil => simp [calculateAux, List.get?] at h2
      | cons b2 bs2 =>
        simp only [calculateAux, List.get?] at h1 h2
        obtain rfl := Option.some.inj h1
        obtain rfl := Option.some.inj h2
        rfl
    | succ i =>
      simp only [calculateAux, List.get?] at h1 h2
      exact ih _ _ i hb hb' h1 h2

/-- Consecutive rows of `calculate` satisfy the `ha_open` recurrence. -/
theorem calculate_open_step (bars : List Bar) (i : ℕ) (hb hb' : HABar)
    (h1 : (calculate bars).get? i = some hb)
    (h2 : (calculate bars).get? (i + 1) = some hb') :
    hb'.ha_open = (hb.ha_open + hb.ha_close) / 2 := by
  cases bars with
  | nil => simp [calculate] at h1
  | cons b bs =>
    cases i with
    | zero =>
      cases bs with
      | nil => simp [calculate, calculateAux, List.get?] at h2
      | cons b2 bs2 =>
        simp only [calculate, calculateAux, List.get?] at h1 h2
        obtain rfl := Option.some.inj h1
        obtain rfl := Option.some.inj h2
        rfl
    | succ i =>
      simp only [calculate, List.get?] at h1 h2
      exact calculateAux_open_step bs _ _ i hb hb' h1 h2

/-- The first row of `calculate` is seeded with the first raw open. -/
theorem calculate_open_zero (bars : List Bar) (hb : HABar) (b : Bar)
    (h1 : (calculate bars).get? 0 = some hb) (h2 : bars.get? 0 = some b) :
    hb.ha_open = b.open_ := by
  cases bars with
  | nil => simp [calculate] at h1
  | cons b' bs =>
    simp only [calculate, List.get?] at h1 h2
    obtain rfl := Option.some.inj h1
    obtain rfl := Option.some.inj h2
    rfl

/-- C2: `calculate` maps empty to empty, preserves length, and at every
index: smoothed-close is the mean of the four raw fields, smoothed-high
is `max(raw-high, smoothed-open, smoothed-close)`, smoothed-low is
`min(raw-low, smoothed-open, smoothed-close)`, smoothed-open is seeded
from the first raw open and then averages the previous row's
smoothed-open and smoothed-close. -/
theorem computeSmoothed_spec :
    calculate [] = [] ∧
    (∀ bars : List Bar, (calculate bars).length = bars.length) ∧
    (∀ (bars : List Bar) (i : ℕ) (hb : HABar) (b : Bar),
      (calculate bars).get? i = some hb → bars.get? i = some b →
        hb.ha_close = (b.open_ + b.high + b.low + b.close) / 4 ∧
        hb.ha_high = max b.high (max hb.ha_open hb.ha_close) ∧
        hb.ha_low = min b.low (min hb.ha_open hb.ha_close)) ∧
    (∀ (bars : List Bar) (hb : HABar) (b : Bar),
      (calculate bars).get? 0 = some hb → bars.get? 0 = some b →
        hb.ha_open = b.open_) ∧
    (∀ (bars : List Bar) (i : ℕ) (hb hb' : HABar),
      (calculate bars).get? i = some hb →
      (calculate bars).get? (i + 1) = some hb' →
        hb'.ha_open = (hb.ha_open + hb.ha_close) / 2) := by
  refine ⟨rfl, calculate_length, ?_, calculate_open_zero, calculate_open_step⟩
  intro bars i hb b h1 h2
  have h := calculate_shape bars i hb b h1 h2
  refine ⟨?_, ?_, ?_⟩ <;> rw [h] <;> rfl

/-- Witness for C2 on a concrete two-bar series. -/
theorem computeSmoothed_spec_witness :
    (HABar.mk (41/4) 13 10 (23/2)).ha_open =
      ((HABar.mk 10 12 9 (21/2)).ha_open + (HABar.mk 10 12 9 (21/2)).ha_close) / 2 :=
  computeSmoothed_spec.2.2.2.2
    [Bar.mk 0 10 12 9 11 500000, Bar.mk 0 11 13 10 12 400000] 0
    (HABar.mk 10 12 9 (21/2)) (HABar.mk (41/4) 13 10 (23/2))
    (by norm_num [calculate, calculateAux, haRow, haCloseOf, List.get?,
      max_def, min_def])
    (by norm_num [calculate, calculateAux, haRow, haCloseOf, List.get?,
      max_def, min_def])

/-- C10: every smoothed candle's range contains its own body and the raw
extremes: `ha_low` is below `ha_open`, `ha_close` and the raw low, and
`ha_high` is above `ha_open`, `ha_close` and the raw high. -/
theorem smoothed_range_contains (bars : List Bar) (i : ℕ) (hb : HABar) (b : Bar)
    (h1 : (calculate bars).get? i = some hb) (h2 : bars.get? i = some b) :
    hb.ha_low ≤ min hb.ha_open (min hb.ha_close b.low) ∧
    max hb.ha_open (max hb.ha_close b.high) ≤ hb.ha_high := by
  have h := calculate_shape bars i hb b h1 h2
  constructor
  · rw [h]
    show min b.low (min hb.ha_open (haCloseOf b)) ≤
        min hb.ha_open (min (haCloseOf b) b.low)
    exact le_min (le_trans (min_le_right _ _) (min_le_left _ _))
      (le_min (le_trans (min_le_right _ _) (min_le_right _ _))
        (min_le_left _ _))
  · rw [h]
    show max hb.ha_open (max (haCloseOf b) b.high) ≤
        max b.high (max hb.ha_open (haCloseOf b))
    exact max_le (le_trans (le_max_left _ _) (le_max_right _ _))
      (max_le (le_trans (le_max_right _ _) (le_max_right _ _))
        (le_max_left _ _))

/-- Witness for C10 at index 0 of a concrete series. -/
theorem smoothed_range_contains_witness :
    (HABar.mk 10 12 9 (21/2)).ha_low ≤
      min (HABar.mk 10 12 9 (21/2)).ha_open
        (min (HABar.mk 10 12 9 (21/2)).ha_close (9 : ℚ)) ∧
    max (HABar.mk 10 12 9 (21/2)).ha_open
        (max (HABar.mk 10 12 9 (21/2)).ha_close (12 : ℚ)) ≤
      (HABar.mk 10 12 9 (21/2)).ha_high :=
  smoothed_range_contains [Bar.mk 0 10 12 9 11 500000] 0
    (HABar.mk 10 12 9 (21/2)) (Bar.mk 0 10 12 9 11 500000)
    (by norm_num [calculate, calculateAux, haRow, haCloseOf, List.get?,
      max_def, min_def])
    (by decide)

/-! ### `is_bullish` indexing -/

/-- A negative in-bounds index addresses the same element as its
from-the-end counterpart. -/
theorem is_bullish_neg (l : List HABar) (i : ℤ)
    (h1 : -(l.length : ℤ) ≤ i) (h2 : i < 0) :
    is_bullish l i = is_bullish l (i + (l.length : ℤ)) := by
  by_cases hl : l = []
  · subst hl; simp [is_bullish]
  · have hge : ¬ (i + (l.length : ℤ) < 0) := by omega
    simp only [is_bullish, if_neg hl, if_pos h2, if_neg hge]

/-- C8: `isBullish(series, -1)` agrees with
`isBullish(series, len(series) - 1)` on every series, negative indices
follow Pythonic from-the-end semantics, and the empty series yields
`false` rather than an out-of-range failure. -/
theorem isBullish_pythonic_index :
    (∀ l : List HABar, is_bullish l (-1) = is_bullish l ((l.length : ℤ) - 1)) ∧
    (∀ (l : List HABar) (i : ℤ), -(l.length : ℤ) ≤ i → i < 0 →
      is_bullish l i = is_bullish l (i + (l.length : ℤ))) ∧
    (∀ i : ℤ, is_bullish [] i = some false) := by
  refine ⟨?_, is_bullish_neg, fun i => by simp [is_bullish]⟩
  intro l
  cases l with
  | nil => simp [is_bullish]
  | cons a l' =>
    have h := is_bullish_neg (a :: l') (-1) (by simp) (by norm_num)
    rw [show (((a :: l').length : ℤ)) - 1 = -1 + (((a :: l').length : ℤ))
      from by ring]
    exact h

/-- Witness for C8 at a concrete two-element series and index `-2`. -/
theorem isBullish_pythonic_index_witness :
    is_bullish [HABar.mk 1 2 0 2, HABar.mk 2 3 1 1] (-2) =
      is_bullish [HABar.mk 1 2 0 2, HABar.mk 2 3 1 1]
        (-2 + (([HABar.mk 1 2 0 2, HABar.mk 2 3 1 1] : List HABar).length : ℤ)) :=
  isBullish_pythonic_index.2.1 [HABar.mk 1 2 0 2, HABar.mk 2 3 1 1] (-2)
    (by decide) (by decide)

/-! ### `run_scan` when not connected -/

/-- C7: a disconnected scanner's `run_scan` logs the condition, returns
an empty mapping, notifies nobody and leaves the live set and scan
history untouched. -/
theorem run_scan_not_connected (now : ℤ) (today : ℕ)
    (univ : List StockData) (st : ScannerState)
    (h : st.connected = false) :
    run_scan now today univ st =
      { state := st, returned := [], notified := none,
        loggedNotConnected := true } := by
  simp [run_scan, h]

/-- Witness for C7 on a concrete disconnected state. -/
theorem run_scan_not_connected_witness :
    run_scan 0 0 []
        (ScannerState.mk false
          (ScannerSettings.mk Exchange.BOTH 0 100 0 100 100000 2 true true)
          [] [] true) =
      ScanOutcome.mk
        (ScannerState.mk false
          (ScannerSettings.mk Exchange.BOTH 0 100 0 100 100000 2 true true)
          [] [] true)
        [] none true :=
  run_scan_not_connected 0 0 [] _ rfl

/-! ### Qualification rule -/

/-- Counterexample to C1: with both toggles disabled the nested
conditionals reject nothing, so the decision is `true` while the spec's
conjunction says `false`; with both toggles enabled one bullish signal
already qualifies, while the conjunction demands both; and a concrete
instrument with both toggles off and a bearish first candle still
produces a populated result. -/
theorem scan_qualifies_not_conjunction :
    scan_qualifies
        (ScannerSettings.mk Exchange.BOTH 0 100 0 100 100000 2 false false)
        false false = true ∧
    qualifies_spec
        (ScannerSettings.mk Exchange.BOTH 0 100 0 100 100000 2 false false)
        false false = false ∧
    scan_qualifies
        (ScannerSettings.mk Exchange.BOTH 0 100 0 100 100000 2 true true)
        false true = true ∧
    qualifies_spec
        (ScannerSettings.mk Exchange.BOTH 0 100 0 100 100000 2 true true)
        false true = false ∧
    (scan_stock
        (ScannerSettings.mk Exchange.BOTH 0 100 0 100 100000 2 false false)
        0 "XYZ" [Bar.mk 0 10 12 9 9 500000] none 0 0).isSome = true := by
  refine ⟨rfl, rfl, rfl, rfl, ?_⟩
  decide

/-- C1 as amended: the decision `_scan_stock` makes after the volume
gate is the disjunction "some enabled signal is bullish, or no toggle is
enabled" — with both toggles enabled a single bullish classification
suffices, and with both toggles disabled every instrument that passed
the volume gate qualifies. -/
theorem scan_qualifies_eq_disjunction (s : ScannerSettings) (haB nB : Bool) :
    scan_qualifies s haB nB =
      ((s.detect_ha_candle && haB) || (s.detect_normal_candle && nB) ||
        (!s.detect_ha_candle && !s.detect_normal_candle)) := by
  obtain ⟨ex, mp, xp, mc, xc, mv, tf, dh, dn⟩ := s
  cases dh <;> cases dn <;> cases haB <;> cases nB <;> rfl

/-! ### Session filtering and the volume gate -/

/-- When no bar carries today's date the analyzer reports
`(False, False, 0)`. -/
theorem analyze_no_today (s : ScannerSettings) (today : ℕ) (df : List Bar)
    (h : ∀ b ∈ df, b.date ≠ today) :
    analyze_first_candle s today df = (false, false, 0) := by
  by_cases hdf : df = []
  · simp [analyze_first_candle, hdf]
  · have hf : df.filter (fun b => b.date = today) = [] := by
      rw [List.filter_eq_nil_iff]
      intro b hb
      simp [h b hb]
    simp [analyze_first_candle, hdf, hf]

/-- The analyzer's reported volume is the first session bar's volume. -/
theorem analyze_first_today (s : ScannerSettings) (today : ℕ) (df : List Bar)
    (b : Bar) (rest : List Bar)
    (h : df.filter (fun x => x.date = today) = b :: rest) :
    (analyze_first_candle s today df).2.2 = b.volume := by
  have hdf : df ≠ [] := by
    intro hnil; rw [hnil] at h; simp at h
  simp [analyze_first_candle, hdf, h]

/-- With both toggles disabled and false flags the first rejection block
matches the smoothed toggle. -/
theorem scan_reject1_false_false (s : ScannerSettings)
    (hd : s.detect_ha_candle = true) : scan_reject1 s false false = true := by
  cases hn : s.detect_normal_candle <;> simp [scan_reject1, hd, hn]

/-- With both flags false the second rejection block fires whenever the
raw toggle is enabled. -/
theorem scan_reject2_false_false (s : ScannerSettings)
    (hn : s.detect_normal_candle = true) : scan_reject2 s false false = true := by
  cases hd : s.detect_ha_candle <;> simp [scan_reject2, hn, hd]

/-- Counterexample to C3: with `min_volume = 0` and both detection
toggles disabled, an instrument whose bars all belong to another session
still yields a populated result instead of "no result". -/
theorem scan_stock_no_session_cex :
    (scan_stock (ScannerSettings.mk Exchange.BOTH 0 100 0 100 0 2 false false)
      0 "XYZ" [Bar.mk 1 10 12 9 11 500000] none 0 0).isSome = true := by
  decide

/-- C3 as amended: when no fetched bar is dated in the current session,
`_scan_stock` yields `none` for every Settings value with a positive
minimum volume or at least one detection toggle enabled (with
`min_volume ≤ 0` and both toggles off, the zero-volume placeholder
passes the gate and the instrument qualifies). -/
theorem scan_stock_no_session_none (s : ScannerSettings) (today : ℕ)
    (symbol : String) (df : List Bar) (mkt : Option MktData)
    (market_cap : ℚ) (now : ℤ)
    (hs : 0 < s.min_volume ∨ s.detect_ha_candle = true ∨
      s.detect_normal_candle = true)
    (h : ∀ b ∈ df, b.date ≠ today) :
    scan_stock s today symbol df mkt market_cap now = none := by
  by_cases hdf : df = []
  · simp [scan_stock, hdf]
  · have ha := analyze_no_today s today df h
    simp only [scan_stock, if_neg hdf, ha]
    rcases hs with hv | hd | hn
    · simp [hv]
    · simp [scan_reject1_false_false s hd]
    · simp [scan_reject2_false_false s hn]

/-- Witness for C3 (amended) with default settings and a stale frame. -/
theorem scan_stock_no_session_none_witness :
    scan_stock (ScannerSettings.mk Exchange.BOTH 0 100 0 100 100000 2 true true)
      0 "AAA" [Bar.mk 1 10 12 9 11 500000] none 0 0 = none :=
  scan_stock_no_session_none _ 0 "AAA" _ none 0 0
    (Or.inl (by decide)) (by decide)

/-- C5: a first-candle volume strictly below `min_volume` yields "no
result" whatever the candle directions and toggles, and a first candle
whose volume exactly equals `min_volume` passes the gate (the concrete
conjunct: volume 100000 with `min_volume = 100000` qualifies). -/
theorem scan_stock_volume_gate :
    (∀ (s : ScannerSettings) (today : ℕ) (symbol : String) (df : List Bar)
      (mkt : Option MktData) (market_cap : ℚ) (now : ℤ)
      (b : Bar) (rest : List Bar),
      df.filter (fun x => x.date = today) = b :: rest →
      b.volume < s.min_volume →
      scan_stock s today symbol df mkt market_cap now = none) ∧
    (scan_stock (ScannerSettings.mk Exchange.BOTH 0 100 0 100 100000 2 true true)
      0 "EQ" [Bar.mk 0 10 12 9 11 100000] none 0 0).isSome = true := by
  constructor
  · intro s today symbol df mkt market_cap now b rest hf hv
    have hdf : df ≠ [] := by
      intro hnil; rw [hnil] at hf; simp at hf
    have hvol := analyze_first_today s today df b rest hf
    simp only [scan_stock, if_neg hdf]
    rw [hvol]
    simp [hv]
  · norm_num [scan_stock, analyze_first_candle, is_bullish, calculate,
      calculateAux, haRow, haCloseOf, scan_reject1, scan_reject2,
      List.get?, List.filter]

/-- Witness for C5 on a concrete low-volume first candle. -/
theorem scan_stock_volume_gate_witness :
    scan_stock (ScannerSettings.mk Exchange.BOTH 0 100 0 100 100000 2 true true)
      0 "LO" [Bar.mk 0 10 12 9 11 50000] none 0 0 = none :=
  scan_stock_volume_gate.1 _ 0 "LO" _ none 0 0
    (Bar.mk 0 10 12 9 11 50000) [] (by decide) (by decide)

/-! ### Percent change -/

/-- The code's reference close agrees with the spec's description of it
on every nonempty frame. -/
theorem prevCloseOf_eq_spec (df : List Bar) (h : df ≠ []) :
    prevCloseOf df = prevCloseSpec df := by
  by_cases h2 : 1 < df.length
  · have h2' : 2 ≤ df.length := h2
    simp [prevCloseOf, prevCloseSpec, h2, h2', List.get?_map]
  · have h1 : df.length = 1 := by
      cases df with
      | nil => exact absurd rfl h
      | cons a l =>
        simp only [List.length_cons] at h2 ⊢
        omega
    simp [prevCloseOf, prevCloseSpec, h1, lastClose, List.get?_map]

/-- C6 as amended: a qualifying result's `change_percent` is
`(live-last − reference close) / reference close × 100` whenever the
reference close is positive, and `0` whenever the reference close is
zero **or negative** (the code tests `prev_close > 0`); the spec's
−24.0 two-bar scenario is reproduced in the witness. -/
theorem scan_result_change_percent (s : ScannerSettings) (today : ℕ)
    (symbol : String) (df : List Bar) (mkt : Option MktData)
    (market_cap : ℚ) (now : ℤ) (r : ScanResult)
    (hr : scan_stock s today symbol df mkt market_cap now = some r) :
    r.change_percent =
      if 0 < prevCloseSpec df then
        (liveLast df mkt - prevCloseSpec df) / prevCloseSpec df * 100
      else 0 := by
  by_cases hdf : df = []
  · rw [hdf] at hr; simp [scan_stock] at hr
  · simp only [scan_stock, if_neg hdf] at hr
    split at hr
    · exact absurd hr (by simp)
    · split at hr
      · exact absurd hr (by simp)
      · split at hr
        · exact absurd hr (by simp)
        · obtain rfl := Option.some.inj hr
          rw [← prevCloseOf_eq_spec df hdf]
          rfl

/-- Witness for C6: the spec's two-bar scenario with closes 10 then 8
and live last 7.6 gives −24.0. -/
theorem scan_result_change_percent_witness :
    ((ScanResult.mk "TB" (38/5) (-24) 1 1 0 10 true true 200000 0
        (paramsString (ScannerSettings.mk Exchange.BOTH 0 100 0 100 100000 2
          true true))).change_percent =
      if 0 < prevCloseSpec [Bar.mk 0 (19/2) 10 9 10 200000, Bar.mk 0 9 9 8 8 1]
      then
        ((liveLast [Bar.mk 0 (19/2) 10 9 10 200000, Bar.mk 0 9 9 8 8 1]
            (some (MktData.mk (38/5) 1 1 10)) -
          prevCloseSpec [Bar.mk 0 (19/2) 10 9 10 200000, Bar.mk 0 9 9 8 8 1]) /
          prevCloseSpec [Bar.mk 0 (19/2) 10 9 10 200000, Bar.mk 0 9 9 8 8 1]) *
          100
      else 0) ∧
    ((-24 : ℚ) = (38/5 - 10) / 10 * 100) := by
  constructor
  · have hA : analyze_first_candle
        (ScannerSettings.mk Exchange.BOTH 0 100 0 100 100000 2 true true) 0
        [Bar.mk 0 (19/2) 10 9 10 200000, Bar.mk 0 9 9 8 8 1] =
        (true, true, 200000) := by
      norm_num [analyze_first_candle, is_bullish, calculate, calculateAux,
        haRow, haCloseOf, List.filter, List.get?, List.cons_ne_nil]
    exact scan_result_change_percent
      (ScannerSettings.mk Exchange.BOTH 0 100 0 100 100000 2 true true) 0 "TB"
      [Bar.mk 0 (19/2) 10 9 10 200000, Bar.mk 0 9 9 8 8 1]
      (some (MktData.mk (38/5) 1 1 10)) 0 0
      (ScanResult.mk "TB" (38/5) (-24) 1 1 0 10 true true 200000 0
        (paramsString (ScannerSettings.mk Exchange.BOTH 0 100 0 100 100000 2
          true true)))
      (by
        simp only [scan_stock, hA]
        norm_num [scan_reject1, scan_reject2, prevCloseOf, lastClose,
          List.get?, List.cons_ne_nil])
  · norm_num

/-- Counterexample to C6 as stated: a qualifying instrument whose
reference close is negative (−5) gets `change_percent = 0`, not the
claimed formula value −252. -/
theorem scan_change_percent_cex :
    (scan_stock (ScannerSettings.mk Exchange.BOTH 0 100 0 100 100000 2 true true)
        0 "NG"
        [Bar.mk 0 (-6) (-5) (-7) (-5) 200000, Bar.mk 0 (-5) (-4) (-6) (-4) 1]
        (some (MktData.mk (38/5) 1 1 10)) 0 0).map ScanResult.change_percent =
      some 0 ∧
    prevCloseSpec
      [Bar.mk 0 (-6) (-5) (-7) (-5) 200000, Bar.mk 0 (-5) (-4) (-6) (-4) 1] =
      -5 ∧
    ((38/5 : ℚ) - (-5)) / (-5) * 100 = -252 ∧ ((-252 : ℚ) ≠ 0) := by
  have hA : analyze_first_candle
      (ScannerSettings.mk Exchange.BOTH 0 100 0 100 100000 2 true true) 0
      [Bar.mk 0 (-6) (-5) (-7) (-5) 200000, Bar.mk 0 (-5) (-4) (-6) (-4) 1] =
      (true, true, 200000) := by
    norm_num [analyze_first_candle, is_bullish, calculate, calculateAux,
      haRow, haCloseOf, List.filter, List.get?, List.cons_ne_nil]
  have hs : scan_stock
      (ScannerSettings.mk Exchange.BOTH 0 100 0 100 100000 2 true true) 0 "NG"
      [Bar.mk 0 (-6) (-5) (-7) (-5) 200000, Bar.mk 0 (-5) (-4) (-6) (-4) 1]
      (some (MktData.mk (38/5) 1 1 10)) 0 0 =
      some (ScanResult.mk "NG" (38/5) 0 1 1 0 10 true true 200000 0
        (paramsString (ScannerSettings.mk Exchange.BOTH 0 100 0 100 100000 2
          true true))) := by
    simp only [scan_stock, hA]
    norm_num [scan_reject1, scan_reject2, prevCloseOf, lastClose,
      List.get?, List.cons_ne_nil]
  refine ⟨?_, by norm_num [prevCloseSpec, List.get?], by norm_num,
    by norm_num⟩
  rw [hs]
  rfl

/-! ### Two consecutive scans -/

/-- `_scan_stock` depends on the wall clock only through the
`scan_time` stamp. -/
theorem scan_stock_scrub (s : ScannerSettings) (today : ℕ) (symbol : String)
    (df : List Bar) (mkt : Option MktData) (market_cap : ℚ) (n1 n2 : ℤ) :
    (scan_stock s today symbol df mkt market_cap n1).map scrubTime =
      (scan_stock s today symbol df mkt market_cap n2).map scrubTime := by
  by_cases h1 : df = []
  · simp [scan_stock, h1]
  · simp only [scan_stock, if_neg h1]
    by_cases h2 : (analyze_first_candle s today df).2.2 < s.min_volume
    · simp [h2]
    · simp only [if_neg h2]
      by_cases h3 : scan_reject1 s (analyze_first_candle s today df).1
          (analyze_first_candle s today df).2.1 = true
      · simp [h3]
      · simp only [h3]
        by_cases h4 : scan_reject2 s (analyze_first_candle s today df).1
            (analyze_first_candle s today df).2.1 = true
        · simp [h4]
        · simp only [h4]
          simp [scrubTime]

/-- Erasing timestamps commutes with Python-dict insertion. -/
theorem dictInsert_map_scrub (m : List (String × ScanResult)) (k : String)
    (v : ScanResult) :
    scrubMap (dictInsert m k v) = dictInsert (scrubMap m) k (scrubTime v) := by
  induction m with
  | nil => rfl
  | cons p rest ih =>
    obtain ⟨k', v'⟩ := p
    by_cases h : k' = k
    · simp [dictInsert, scrubMap, h]
    · simp only [dictInsert, scrubMap, List.map_cons, if_neg h]
      simpa [scrubMap] using ih

/-- The collected result mapping is independent of the wall clock up to
`scan_time`. -/
theorem collectResults_scrub (s : ScannerSettings) (today : ℕ) (n1 n2 : ℤ)
    (univ : List StockData) :
    scrubMap (collectResults s today n1 univ) =
      scrubMap (collectResults s today n2 univ) := by
  suffices h : ∀ acc1 acc2 : List (String × ScanResult),
      scrubMap acc1 = scrubMap acc2 →
      scrubMap (univ.foldl
        (fun acc sd =>
          match scan_stock s today sd.symbol sd.df sd.mkt sd.market_cap n1 with
          | some result => dictInsert acc result.symbol result
          | none => acc) acc1) =
      scrubMap (univ.foldl
        (fun acc sd =>
          match scan_stock s today sd.symbol sd.df sd.mkt sd.market_cap n2 with
          | some result => dictInsert acc result.symbol result
          | none => acc) acc2) by
    exact h [] [] rfl
  induction univ with
  | nil => intro a1 a2 h; simpa using h
  | cons sd rest ih =>
    intro a1 a2 h
    simp only [List.foldl_cons]
    apply ih
    have hs := scan_stock_scrub s today sd.symbol sd.df sd.mkt sd.market_cap n1 n2
    cases e1 : scan_stock s today sd.symbol sd.df sd.mkt sd.market_cap n1 with
    | none =>
      cases e2 : scan_stock s today sd.symbol sd.df sd.mkt sd.market_cap n2 with
      | none => simpa [e1, e2] using h
      | some r2 => rw [e1, e2] at hs; simp at hs
    | some r1 =>
      cases e2 : scan_stock s today sd.symbol sd.df sd.mkt sd.market_cap n2 with
      | none => rw [e1, e2] at hs; simp at hs
      | some r2 =>
        rw [e1, e2] at hs
        simp only [Option.map_some'] at hs
        have hr : scrubTime r1 = scrubTime r2 := Option.some.inj hs
        have hsym : r1.symbol = r2.symbol := by
          have hp := congrArg ScanResult.symbol hr
          simpa [scrubTime] using hp
        simp only [e1, e2]
        rw [dictInsert_map_scrub, dictInsert_map_scrub, h, hr, hsym]

/-- One connected `run_scan` call, characterized: archive the live set
when non-empty, replace it with the freshly collected mapping, notify
the callback when registered. -/
theorem run_scan_connected (now : ℤ) (today : ℕ) (univ : List StockData)
    (st : ScannerState) (h : st.connected = true) :
    run_scan now today univ st =
      { state := { st with
          results := collectResults st.settings today now univ,
          scan_history := st.scan_history ++
            (if st.results = [] then [] else
              [ScanRun.mk now (tfParams st.settings) st.results]) },
        returned := collectResults st.settings today now univ,
        notified := if st.has_callback then
          some (collectResults st.settings today now univ) else none,
        loggedNotConnected := false } := by
  by_cases hr : st.results = []
  · simp [run_scan, collectResults, h, hr]
  · simp [run_scan, collectResults, h, hr]

/-- C4 as amended: two consecutive connected `run_scan` calls with
unchanged upstream responses produce the same live mapping modulo
`scan_time`, and append one history entry per call whose pre-call live
set was non-empty — the first call archives the previous live set, the
second call archives the first call's own (non-empty) result set, so up
to two entries are appended, not exactly one. -/
theorem run_scan_rescan (n1 n2 : ℤ) (today : ℕ) (univ : List StockData)
    (st : ScannerState) (h : st.connected = true) :
    scrubMap (run_scan n2 today univ (run_scan n1 today univ st).state).state.results =
      scrubMap (run_scan n1 today univ st).state.results ∧
    (run_scan n2 today univ (run_scan n1 today univ st).state).state.scan_history =
      st.scan_history ++
        (if st.results = [] then [] else
          [ScanRun.mk n1 (tfParams st.settings) st.results]) ++
        (if (run_scan n1 today univ st).state.results = [] then [] else
          [ScanRun.mk n2 (tfParams st.settings)
            (run_scan n1 today univ st).state.results]) := by
  have h1 := run_scan_connected n1 today univ st h
  have hc1 : (run_scan n1 today univ st).state.connected = true := by
    rw [h1]; exact h
  have h2 := run_scan_connected n2 today univ (run_scan n1 today univ st).state hc1
  constructor
  · rw [h2]
    show scrubMap (collectResults (run_scan n1 today univ st).state.settings
        today n2 univ) = scrubMap (run_scan n1 today univ st).state.results
    rw [h1]
    show scrubMap (collectResults st.settings today n2 univ) =
        scrubMap (collectResults st.settings today n1 univ)
    exact collectResults_scrub st.settings today n2 n1 univ
  · rw [h2]
    show (run_scan n1 today univ st).state.scan_history ++
        (if (run_scan n1 today univ st).state.results = [] then [] else
          [ScanRun.mk n2 (tfParams (run_scan n1 today univ st).state.settings)
            (run_scan n1 today univ st).state.results]) = _
    rw [h1]

/-- Counterexample to C4 as stated: starting from a non-empty live set
and a universe that yields one qualifying instrument, two consecutive
`run_scan` calls append **two** history entries (the second call
archives the first call's own results), not exactly one. -/
theorem run_scan_two_entries_cex :
    (run_scan 2 0 [StockData.mk "EQ" [Bar.mk 0 10 12 9 11 100000] none 0]
      (run_scan 1 0 [StockData.mk "EQ" [Bar.mk 0 10 12 9 11 100000] none 0]
        (ScannerState.mk true
          (ScannerSettings.mk Exchange.BOTH 0 100 0 100 100000 2 true true)
          [("A", ScanResult.mk "A" 0 0 0 0 0 0 false false 0 0 "")] []
          false)).state).state.scan_history.length = 2 := by
  have h1 := run_scan_connected 1 0
    [StockData.mk "EQ" [Bar.mk 0 10 12 9 11 100000] none 0]
    (ScannerState.mk true
      (ScannerSettings.mk Exchange.BOTH 0 100 0 100 100000 2 true true)
      [("A", ScanResult.mk "A" 0 0 0 0 0 0 false false 0 0 "")] [] false)
    rfl
  have hc1 : (run_scan 1 0
      [StockData.mk "EQ" [Bar.mk 0 10 12 9 11 100000] none 0]
      (ScannerState.mk true
        (ScannerSettings.mk Exchange.BOTH 0 100 0 100 100000 2 true true)
        [("A", ScanResult.mk "A" 0 0 0 0 0 0 false false 0 0 "")] []
        false)).state.connected = true := by
    rw [h1]
  have h2 := run_scan_connected 2 0
    [StockData.mk "EQ" [Bar.mk 0 10 12 9 11 100000] none 0]
    (run_scan 1 0 [StockData.mk "EQ" [Bar.mk 0 10 12 9 11 100000] none 0]
      (ScannerState.mk true
        (ScannerSettings.mk Exchange.BOTH 0 100 0 100 100000 2 true true)
        [("A", ScanResult.mk "A" 0 0 0 0 0 0 false false 0 0 "")] []
        false)).state hc1
  have hsome : (scan_stock
      (ScannerSettings.mk Exchange.BOTH 0 100 0 100 100000 2 true true)
      0 "EQ" [Bar.mk 0 10 12 9 11 100000] none 0 1).isSome = true := by
    norm_num [scan_stock, analyze_first_candle, is_bullish, calculate,
      calculateAux, haRow, haCloseOf, scan_reject1, scan_reject2,
      List.get?, List.filter, List.cons_ne_nil]
  have hne : collectResults
      (ScannerSettings.mk Exchange.BOTH 0 100 0 100 100000 2 true true) 0 1
      [StockData.mk "EQ" [Bar.mk 0 10 12 9 11 100000] none 0] ≠ [] := by
    cases e : scan_stock
        (ScannerSettings.mk Exchange.BOTH 0 100 0 100 100000 2 true true)
        0 "EQ" [Bar.mk 0 10 12 9 11 100000] none 0 1 with
    | none => rw [e] at hsome; simp at hsome
    | some r => simp [collectResults, e, dictInsert]
  rw [h2, h1]
  simp [hne]

/-- Witness for C4 (amended) on a concrete connected state with an
empty prior live set and an empty universe. -/
theorem run_scan_rescan_witness :
    scrubMap (run_scan 2 0 []
        (run_scan 1 0 []
          (ScannerState.mk true
            (ScannerSettings.mk Exchange.BOTH 0 100 0 100 100000 2 true true)
            [] [] false)).state).state.results =
      scrubMap (run_scan 1 0 []
        (ScannerState.mk true
          (ScannerSettings.mk Exchange.BOTH 0 100 0 100 100000 2 true true)
          [] [] false)).state.results ∧
    (run_scan 2 0 []
        (run_scan 1 0 []
          (ScannerState.mk true
            (ScannerSettings.mk Exchange.BOTH 0 100 0 100 100000 2 true true)
            [] [] false)).state).state.scan_history =
      (ScannerState.mk true
        (ScannerSettings.mk Exchange.BOTH 0 100 0 100 100000 2 true true)
        [] [] false).scan_history ++
        (if (ScannerState.mk true
            (ScannerSettings.mk Exchange.BOTH 0 100 0 100 100000 2 true true)
            [] [] false).results = [] then [] else
          [ScanRun.mk 1
            (tfParams (ScannerState.mk true
              (ScannerSettings.mk Exchange.BOTH 0 100 0 100 100000 2 true true)
              [] [] false).settings)
            (ScannerState.mk true
              (ScannerSettings.mk Exchange.BOTH 0 100 0 100 100000 2 true true)
              [] [] false).results]) ++
        (if (run_scan 1 0 []
            (ScannerState.mk true
              (ScannerSettings.mk Exchange.BOTH 0 100 0 100 100000 2 true true)
              [] [] false)).state.results = [] then [] else
          [ScanRun.mk 2
            (tfParams (ScannerState.mk true
              (ScannerSettings.mk Exchange.BOTH 0 100 0 100 100000 2 true true)
              [] [] false).settings)
            (run_scan 1 0 []
              (ScannerState.mk true
                (ScannerSettings.mk Exchange.BOTH 0 100 0 100 100000 2 true true)
                [] [] false)).state.results]) :=
  run_scan_rescan 1 2 0 []
    (ScannerState.mk true
      (ScannerSettings.mk Exchange.BOTH 0 100 0 100 100000 2 true true)
      [] [] false) rfl

/-! ### Monitor scheduler -/

/-- Monitor-loop steps never modify the cancellation flag; only
`start_monitoring` and `stop_monitoring` do. -/
theorem monitorStep_preserves_running (s : MonitorState) (e : MonitorEvent)
    (s' : MonitorState) (h : monitorStep s e s') : s'.running = s.running := by
  cases h <;> rfl

/-- A scan can only start from the `while self._running` test with the
flag still set. -/
theorem monitorStep_scanStarted (s : MonitorState) (e : MonitorEvent)
    (s' : MonitorState) (h : monitorStep s e s')
    (he : e = MonitorEvent.scanStarted) :
    s.running = true ∧ s.phase = MonitorPhase.checkRunning := by
  cases h <;> simp_all

/-- Once the cancellation flag is cleared, no trace of the monitor loop
ever contains a scan start. -/
theorem monitorTrace_no_scan (s : MonitorState) (es : List MonitorEvent)
    (s' : MonitorState) (ht : MonitorTrace s es s') (hr : s.running = false) :
    MonitorEvent.scanStarted ∉ es := by
  revert hr
  induction ht with
  | refl s1 => intro hr; simp
  | step s1 s2 s3 e es hstep htrace ih =>
    intro hr hmem
    rcases List.mem_cons.mp hmem with h | h
    · have hse := monitorStep_scanStarted s1 e s2 hstep h.symm
      rw [hse.1] at hr
      exact Bool.noConfusion hr
    · have hr2 : s2.running = false := by
        rw [monitorStep_preserves_running s1 e s2 hstep]; exact hr
      exact ih hr2 h

/-- C9: `stop()` right after `start()` leaves the flag cleared (STOPPED);
the `join` bound passed by `stop_monitoring` is 5 seconds; the loop
checks the cancellation flag (at the `while` test) before any scan
starts; and from any state with the flag cleared — in particular the
state `stop_monitoring` returns in — no trace of the monitor loop
contains a scan start. -/
theorem stop_monitoring_halts :
    (∀ i : ℕ, (stop_monitoring (start_monitoring i)).1.running = false) ∧
    (∀ s : MonitorState, (stop_monitoring s).2 = 5) ∧
    (∀ (s : MonitorState) (e : MonitorEvent) (s' : MonitorState),
      monitorStep s e s' → e = MonitorEvent.scanStarted →
      s.running = true ∧ s.phase = MonitorPhase.checkRunning) ∧
    (∀ (s : MonitorState) (es : List MonitorEvent) (s' : MonitorState),
      MonitorTrace s es s' → s.running = false →
      MonitorEvent.scanStarted ∉ es) :=
  ⟨fun _ => rfl, fun _ => rfl, monitorStep_scanStarted,
    fun s es s' ht hr => monitorTrace_no_scan s es s' ht hr⟩

/-- Witness for C9: a concrete stopped-state trace (wake from the sleep
loop, then exit) contains no scan start. -/
theorem stop_monitoring_halts_witness :
    MonitorEvent.scanStarted ∉
      [MonitorEvent.wokeEarly, MonitorEvent.loopExited] :=
  stop_monitoring_halts.2.2.2
    (MonitorState.mk false (MonitorPhase.waiting 2) 30)
    [MonitorEvent.wokeEarly, MonitorEvent.loopExited]
    (MonitorState.mk false MonitorPhase.exited 30)
    (MonitorTrace.step _ _ _ _ _
      (monitorStep.breakEarly (MonitorState.mk false (MonitorPhase.waiting 2) 30)
        2 rfl rfl)
      (MonitorTrace.step _ _ _ _ _
        (monitorStep.exitLoop
          (MonitorState.mk false MonitorPhase.checkRunning 30) rfl rfl)
        (MonitorTrace.refl _)))
    rfl
